import Mathlib

/-!
Verification of the DuckWallet CEDEAR screener against its design
specification.

The repository ships a React frontend (`frontend/src/App.jsx`,
`frontend/src/components/CedearCard.jsx`, `frontend/src/components/Sidebar.jsx`)
together with project documentation (README, copilot instructions) that
records the backend's scoring methodology and response contract.  The
Python backend itself is not part of the checked-out sources, so the
scoring, aggregation and ranking functions are modelled from the
specification (each such definition is marked `Modelled from the spec:`),
while the caching, race-guard and market-session logic is embedded
directly from the frontend source.
-/

namespace DuckWallet

/-- Trend of an asset over the last sessions, one of the three string
values `bullish` / `bearish` / `neutral` used throughout the sources. -/
inductive Trend where
  | bullish
  | bearish
  | neutral
deriving DecidableEq, Repr

/-- Per-asset technical indicators, as listed in the README
(`daily_change_pct`, `volume_ratio`, `rsi`, SMA 20, trend, price). -/
structure IndicatorSet where
  daily_change_pct : ℚ
  volume_ratio : ℚ
  rsi14 : ℚ
  sma20 : ℚ
  current_price : ℚ
  trend : Trend
deriving DecidableEq, Repr

/-- Modelled from the spec: the backend Momentum scorer is absent from the
checked-out sources; its five rules are transcribed from the README scoring
table (Metodología de Scoring: +3 daily change > 2%, +2 volume ratio > 1,
+2 RSI in [50,70], +2 price > SMA20, +1 bullish trend). -/
def momentumScore (i : IndicatorSet) : ℕ :=
  (if i.daily_change_pct > 2 then 3 else 0)
    + (if i.volume_ratio > 1 then 2 else 0)
    + (if 50 ≤ i.rsi14 ∧ i.rsi14 ≤ 70 then 2 else 0)
    + (if i.current_price > i.sma20 then 2 else 0)
    + (if i.trend = Trend.bullish then 1 else 0)

/-- One line of a score breakdown: a human-readable reason and the points
awarded, the shape consumed by `CedearCard.jsx` (`value.reason`,
`value.points`). -/
structure BreakdownEntry where
  reason : String
  points : ℕ
deriving DecidableEq, Repr

/-- Modelled from the spec: the Momentum breakdown lists every evaluated
criterion in a fixed order, including zero-point entries, mirroring the
five rules of the README scoring table. -/
def momentumBreakdown (i : IndicatorSet) : List BreakdownEntry :=
  [ ⟨"Variación diaria > 2%", if i.daily_change_pct > 2 then 3 else 0⟩,
    ⟨"Volumen > promedio 30 días", if i.volume_ratio > 1 then 2 else 0⟩,
    ⟨"RSI entre 50 y 70", if 50 ≤ i.rsi14 ∧ i.rsi14 ≤ 70 then 2 else 0⟩,
    ⟨"Precio > SMA 20", if i.current_price > i.sma20 then 2 else 0⟩,
    ⟨"Tendencia alcista", if i.trend = Trend.bullish then 1 else 0⟩ ]

/-- Fundamentals for the Value and Defensive strategies: P/E ratio,
dividend yield %, return on equity %, beta and trailing volatility %,
each with "unavailable" representable per field (`none`). -/
structure FundamentalsSnapshot where
  pe_ratio : Option ℚ
  dividend_yield : Option ℚ
  roe : Option ℚ
  beta : Option ℚ
  volatility : Option ℚ
deriving DecidableEq, Repr

/-- Modelled from the spec: the backend Value scorer is absent from the
checked-out sources. Breakpoint-and-sum over lower P/E (breakpoints 15
and 25, the ones `CedearCard.jsx` colors by), higher dividend yield and
higher ROE; a missing field contributes zero. Point weights are policy
constants chosen so the breakpoint tiers sum to the 10-point cap. -/
def valueScore (f : FundamentalsSnapshot) : ℕ :=
  (match f.pe_ratio with
    | none => 0
    | some p => if p < 15 then 4 else if p < 25 then 2 else 0)
    + (match f.dividend_yield with
        | none => 0
        | some d => if d ≥ 2 then 3 else if d ≥ 1 then 1 else 0)
    + (match f.roe with
        | none => 0
        | some r => if r ≥ 15 then 3 else if r ≥ 10 then 1 else 0)

/-- Modelled from the spec: the Value breakdown lists each of the three
evaluated criteria in a fixed order, with an explicit zero-point
"no disponible" entry when the fundamental field is missing and a reason
tied to the numeric value otherwise. -/
def valueBreakdown (f : FundamentalsSnapshot) : List BreakdownEntry :=
  [ (match f.pe_ratio with
      | none => ⟨"P/E no disponible", 0⟩
      | some p => ⟨"P/E " ++ toString p ++ " vs 15/25",
          if p < 15 then 4 else if p < 25 then 2 else 0⟩),
    (match f.dividend_yield with
      | none => ⟨"Dividendo no disponible", 0⟩
      | some d => ⟨"Dividendo " ++ toString d ++ "% vs 2%/1%",
          if d ≥ 2 then 3 else if d ≥ 1 then 1 else 0⟩),
    (match f.roe with
      | none => ⟨"ROE no disponible", 0⟩
      | some r => ⟨"ROE " ++ toString r ++ "% vs 15%/10%",
          if r ≥ 15 then 3 else if r ≥ 10 then 1 else 0⟩) ]

/-- Modelled from the spec: the backend Defensive scorer is absent from
the checked-out sources. Breakpoint-and-sum rewarding low beta
(breakpoints 0.8 and 1.0, with `beta ≥ 1.0` scoring lowest), low trailing
volatility (breakpoints 2 and 3) and adequate dividend yield (breakpoint
1.5, the thresholds `CedearCard.jsx` colors by); a missing field
contributes zero. Point weights are policy constants chosen so the
breakpoint tiers sum to the 10-point cap. -/
def defensiveScore (f : FundamentalsSnapshot) : ℕ :=
  (match f.beta with
    | none => 0
    | some b => if b < 0.8 then 4 else if b < 1 then 2 else 0)
    + (match f.volatility with
        | none => 0
        | some v => if v < 2 then 3 else if v < 3 then 1 else 0)
    + (match f.dividend_yield with
        | none => 0
        | some d => if d ≥ 1.5 then 3 else if d ≥ 0.5 then 1 else 0)

/-- Modelled from the spec: the Defensive breakdown lists each of the
three evaluated criteria in a fixed order, with an explicit zero-point
"no disponible" entry when the fundamental field is missing and a reason
tied to the numeric value otherwise. -/
def defensiveBreakdown (f : FundamentalsSnapshot) : List BreakdownEntry :=
  [ (match f.beta with
      | none => ⟨"Beta no disponible", 0⟩
      | some b => ⟨"Beta " ++ toString b ++ " vs 0.8/1.0",
          if b < 0.8 then 4 else if b < 1 then 2 else 0⟩),
    (match f.volatility with
      | none => ⟨"Volatilidad no disponible", 0⟩
      | some v => ⟨"Volatilidad " ++ toString v ++ "% vs 2%/3%",
          if v < 2 then 3 else if v < 3 then 1 else 0⟩),
    (match f.dividend_yield with
      | none => ⟨"Dividendo no disponible", 0⟩
      | some d => ⟨"Dividendo " ++ toString d ++ "% vs 1.5%/0.5%",
          if d ≥ 1.5 then 3 else if d ≥ 0.5 then 1 else 0⟩) ]

/-- The three scoring strategy variants. -/
inductive StrategyKind where
  | momentum
  | value
  | defensive
deriving DecidableEq, Repr

/-- Modelled from the spec: the polymorphic Strategy Scorer's total for
each variant (Momentum from indicators, Value and Defensive from
fundamentals). -/
def strategyScore : StrategyKind → IndicatorSet → FundamentalsSnapshot → ℕ
  | .momentum, i, _ => momentumScore i
  | .value, _, f => valueScore f
  | .defensive, _, f => defensiveScore f

/-- Modelled from the spec: the polymorphic Strategy Scorer's breakdown
for each variant. -/
def strategyBreakdown :
    StrategyKind → IndicatorSet → FundamentalsSnapshot → List BreakdownEntry
  | .momentum, i, _ => momentumBreakdown i
  | .value, _, f => valueBreakdown f
  | .defensive, _, f => defensiveBreakdown f

/-- The number of criteria each strategy variant evaluates: five Momentum
rules, three Value criteria, three Defensive criteria. -/
def criterionCount : StrategyKind → ℕ
  | .momentum => 5
  | .value => 3
  | .defensive => 3

/-- The seven weekday abbreviations produced by the `Intl.DateTimeFormat`
`weekday: short` option that `isMarketOpen` inspects. -/
inductive Weekday where
  | mon | tue | wed | thu | fri | sat | sun
deriving DecidableEq, Repr

/-- The short weekday string emitted by the formatter for each weekday. -/
def Weekday.shortName : Weekday → String
  | .mon => "Mon"
  | .tue => "Tue"
  | .wed => "Wed"
  | .thu => "Thu"
  | .fri => "Fri"
  | .sat => "Sat"
  | .sun => "Sun"

/-- `isMarketOpen` from `App.jsx` lines 13-41, applied to the Eastern-Time
clock components extracted by the `Intl.DateTimeFormat` formatter with
`timeZone: America/New_York`: closed on weekends, otherwise open exactly
when the minute-of-day lies in `[9*60+30, 16*60)`. -/
def isMarketOpen (weekday : String) (hours minutes : ℕ) : Bool :=
  let currentMinutes := hours * 60 + minutes
  let isWeekend := weekday = "Sat" || weekday = "Sun"
  let marketOpen := 9 * 60 + 30
  let marketClose := 16 * 60
  if isWeekend then false
  else if currentMinutes < marketOpen || currentMinutes ≥ marketClose then false
  else true

/-- `getMarketStatus().isOpen` from `Sidebar.jsx` (the unnamed source part
with the pre-market / after-hours labels): the same weekend test, then
pre-market (`currentMinutes < marketOpen`), open
(`marketOpen ≤ currentMinutes < marketClose`), after-hours. -/
def getMarketStatusIsOpen (weekday : String) (hours minutes : ℕ) : Bool :=
  let currentMinutes := hours * 60 + minutes
  let isWeekend := weekday = "Sat" || weekday = "Sun"
  let marketOpen := 9 * 60 + 30
  let marketClose := 16 * 60
  if isWeekend then false
  else if currentMinutes < marketOpen then false
  else if currentMinutes ≥ marketOpen && currentMinutes < marketClose then true
  else false

/-- One serialized ranking entry, the shape given by the README response
example and destructured by `CedearCard.jsx`: identity under `cedear`,
then `company`, `score`, `daily_change_pct`, `volume_ratio`, `rsi`,
`trend`, `current_price`, plus the optional `score_breakdown`. -/
structure Entry where
  cedear : String
  company : String
  score : ℚ
  daily_change_pct : ℚ
  volume_ratio : ℚ
  rsi : ℚ
  trend : Trend
  current_price : ℚ
  score_breakdown : Option (List BreakdownEntry) := none
deriving DecidableEq, Repr

/-- A serialized JSON-like value, enough to express the response shapes. -/
inductive JValue where
  | str (s : String)
  | num (q : ℚ)
  | arr (l : List (List (String × JValue)))
deriving Repr

/-- Serialization of one breakdown line as an ordered field list, the two
fields read back by `CedearCard.jsx` (`value.reason`, `value.points`). -/
def serializeBreakdownEntry (b : BreakdownEntry) : List (String × JValue) :=
  [("reason", .str b.reason), ("points", .num b.points)]

/-- Serialization of one ranking entry as an ordered field list, following
the README response example field by field, with `score_breakdown`
appended when it was requested. -/
def serializeEntry (e : Entry) : List (String × JValue) :=
  [ ("cedear", .str e.cedear),
    ("company", .str e.company),
    ("score", .num e.score),
    ("daily_change_pct", .num e.daily_change_pct),
    ("volume_ratio", .num e.volume_ratio),
    ("rsi", .num e.rsi),
    ("trend", .str (match e.trend with
        | .bullish => "bullish"
        | .bearish => "bearish"
        | .neutral => "neutral")),
    ("current_price", .num e.current_price) ]
  ++ (match e.score_breakdown with
      | none => []
      | some bs => [("score_breakdown", .arr (bs.map serializeBreakdownEntry))])

/-- The full ranking response (`date`, `disclaimer`, `top5`) from the
README response example, the shape `App.jsx` consumes via `data.date`,
`data.disclaimer` and `data.top5`. -/
structure RankedResponse where
  date : String
  disclaimer : String
  top5 : List Entry
deriving DecidableEq, Repr

/-- Serialization of the whole response as an ordered field list. -/
def serializeResponse (r : RankedResponse) : List (String × JValue) :=
  [ ("date", .str r.date),
    ("disclaimer", .str r.disclaimer),
    ("top5", .arr (r.top5.map serializeEntry)) ]

/-- A cache entry as stored in `dataCache[strategy]` by `App.jsx` line 85:
the fetched response together with its creation timestamp. -/
structure CacheEntry where
  data : RankedResponse
  timestamp : ℕ
deriving DecidableEq, Repr

/-- `CACHE_TTL` from `App.jsx` line 45: five minutes in milliseconds. -/
def CACHE_TTL : ℕ := 5 * 60 * 1000

/-- The mutable state touched by `fetchData` in `App.jsx`: the module-level
`dataCache`, the `data` / `error` / `isLoading` React state, and the
`fetchIdRef` counter used as a race guard. -/
structure AppState where
  cache : String → Option CacheEntry
  data : Option RankedResponse
  error : Option String
  isLoading : Bool
  fetchCounter : ℕ

/-- The synchronous head of `fetchData` (`App.jsx` lines 58-77): serve the
cache when the request is not forced, an entry exists, and the entry is
within TTL or the market is closed; otherwise clear the error, show the
spinner only when nothing is cached, bump `fetchIdRef` and start a fetch
carrying the bumped id. Returns the new state and `some fetchId` when a
provider fetch is started, `none` when the cache was served. -/
def beginFetchData (s : AppState) (strategy : String) (force : Bool)
    (now : ℕ) (marketOpen : Bool) : AppState × Option ℕ :=
  match s.cache strategy with
  | some c =>
      if !force && (decide (now - c.timestamp < CACHE_TTL) || !marketOpen) then
        ({ s with data := some c.data, isLoading := false }, none)
      else
        ({ s with error := none, fetchCounter := s.fetchCounter + 1 },
          some (s.fetchCounter + 1))
  | none =>
      ({ s with isLoading := true, error := none,
                fetchCounter := s.fetchCounter + 1 },
        some (s.fetchCounter + 1))

/-- The continuation of `fetchData` after `getTop5Cedears` settles
(`App.jsx` lines 78-97): every update is guarded by
`fetchId === fetchIdRef.current`; on success the response becomes the
displayed data and replaces `dataCache[strategy]` wholesale with a fresh
timestamp, on failure only the error message and the spinner change. -/
def settleFetchData (s : AppState) (strategy : String) (fetchId : ℕ)
    (outcome : Except String RankedResponse) (settleTime : ℕ) : AppState :=
  if fetchId = s.fetchCounter then
    match outcome with
    | .ok result =>
        { s with data := some result,
                 cache := fun k =>
                   if k = strategy then some ⟨result, settleTime⟩ else s.cache k,
                 isLoading := false }
    | .error msg =>
        { s with error := some msg, isLoading := false }
  else s

/-- One uninterrupted `fetchData` call: the synchronous head followed, when
a fetch was started, by its settlement with the provider outcome. The
second component counts the provider fetches performed. -/
def runFetchData (s : AppState) (strategy : String) (force : Bool)
    (now : ℕ) (marketOpen : Bool) (outcome : Except String RankedResponse)
    (settleTime : ℕ) : AppState × ℕ :=
  match beginFetchData s strategy force now marketOpen with
  | (s₁, none) => (s₁, 0)
  | (s₁, some fetchId) =>
      (settleFetchData s₁ strategy fetchId outcome settleTime, 1)

/-- Modelled from the spec: the Composite Aggregator counts in how many of
the three sub-strategies (Momentum, Value, Defensive) an asset ranks
inside that strategy's own Top-N list. -/
def membershipCount (mTop vTop dTop : List String) (t : String) : ℕ :=
  (if t ∈ mTop then 1 else 0) + (if t ∈ vTop then 1 else 0)
    + (if t ∈ dTop then 1 else 0)

/-- Modelled from the spec: the scores this asset obtained in the
sub-strategies whose Top-N include it, in the fixed strategy order. -/
def includedScores (mTop vTop dTop : List String)
    (mScore vScore dScore : String → ℚ) (t : String) : List ℚ :=
  (if t ∈ mTop then [mScore t] else []) ++ (if t ∈ vTop then [vScore t] else [])
    ++ (if t ∈ dTop then [dScore t] else [])

/-- Modelled from the spec: the average score across the strategies that
included the asset (0 when no strategy did, though such assets are
excluded from the Global ranking). -/
def avgIncludedScore (mTop vTop dTop : List String)
    (mScore vScore dScore : String → ℚ) (t : String) : ℚ :=
  let l := includedScores mTop vTop dTop mScore vScore dScore t
  if l.length = 0 then 0 else l.sum / l.length

/-- Modelled from the spec: the Global strategy entry served for an asset,
smuggling the membership count into the `volume_ratio` field and the
average score into the `rsi` field, exactly the overloading the frontend
comments document (`# de estrategias está en volume_ratio`,
`Score promedio está en rsi`). -/
def globalEntry (mTop vTop dTop : List String)
    (mScore vScore dScore : String → ℚ) (t company : String)
    (trend : Trend) (change price : ℚ) : Entry :=
  { cedear := t,
    company := company,
    score := avgIncludedScore mTop vTop dTop mScore vScore dScore t,
    daily_change_pct := change,
    volume_ratio := (membershipCount mTop vTop dTop t : ℚ),
    rsi := avgIncludedScore mTop vTop dTop mScore vScore dScore t,
    trend := trend,
    current_price := price }

/-- The Global branch of `renderIndicators` in `CedearCard.jsx`:
`numStrategies = Math.round(volume_ratio)` and `avgScore = rsi`. -/
def renderGlobalIndicators (e : Entry) : ℤ × ℚ :=
  (round e.volume_ratio, e.rsi)

/-- A scored asset as fed to the Ranking Engine: identity plus the bounded
integer total score. -/
structure ScoredAsset where
  ticker : String
  company : String
  score : ℕ
deriving DecidableEq, Repr

/-- Modelled from the spec: the Ranking Engine's ordering — descending
total score, ties broken by ascending lexical ticker. -/
def rankLE (a b : ScoredAsset) : Bool :=
  decide (b.score < a.score)
    || (decide (a.score = b.score) && decide (a.ticker ≤ b.ticker))

/-- Modelled from the spec: the Ranking Engine sorts the scored assets by
`rankLE` and truncates to the configured Top-N. -/
def rankAssets (topN : ℕ) (l : List ScoredAsset) : List ScoredAsset :=
  (l.mergeSort rankLE).take topN

/-- The NVDA entry of the README response example, used as concrete test
data. -/
def nvdaEntry : Entry :=
  { cedear := "NVDA",
    company := "NVIDIA Corporation",
    score := 9,
    daily_change_pct := 3.45,
    volume_ratio := 1.82,
    rsi := 62.5,
    trend := .bullish,
    current_price := 547.20 }

/-- The response of the README example, used as concrete test data. -/
def sampleResponse : RankedResponse :=
  { date := "2024-01-15",
    disclaimer := "Este análisis es informativo y educativo...",
    top5 := [nvdaEntry] }

/-- A concrete app state holding one cache entry for the momentum strategy,
created at timestamp 0, used as concrete test data. -/
def sampleCachedState : AppState :=
  { cache := fun k => if k = "momentum" then some ⟨sampleResponse, 0⟩ else none,
    data := none,
    error := none,
    isLoading := true,
    fetchCounter := 0 }

/-- The indicator set of the specification's Momentum scenario, used as
concrete test data. -/
def scenarioIndicators : IndicatorSet :=
  { daily_change_pct := 3.45,
    volume_ratio := 1.82,
    rsi14 := 62.5,
    sma20 := 500,
    current_price := 547.20,
    trend := .bullish }

/-- A small collection of scored assets with a tied score, used as concrete
test data for the ranking engine. -/
def sampleAssets : List ScoredAsset :=
  [ ⟨"MSFT", "Microsoft Corporation", 7⟩,
    ⟨"AAPL", "Apple Inc.", 7⟩,
    ⟨"NVDA", "NVIDIA Corporation", 9⟩ ]

/-! ## Theorems -/

/-- C1: an asset with `daily_change_pct = 3.45`, `volume_ratio = 1.82`,
`rsi14 = 62.5`, `current_price > sma20` and bullish trend scores
3+2+2+2+1 = 10 under the Momentum rules, and no Momentum total ever
exceeds the strategy maximum of 10. -/
theorem momentum_scenario_scores_ten (i : IndicatorSet)
    (h₁ : i.daily_change_pct = 3.45) (h₂ : i.volume_ratio = 1.82)
    (h₃ : i.rsi14 = 62.5) (h₄ : i.current_price > i.sma20)
    (h₅ : i.trend = Trend.bullish) :
    momentumScore i = 3 + 2 + 2 + 2 + 1
      ∧ (∀ j : IndicatorSet, momentumScore j ≤ 10) := by
  constructor
  · simp only [momentumScore, h₁, h₂, h₃, h₅]
    norm_num [h₄]
  · intro j
    unfold momentumScore
    split_ifs <;> omega

/-- Witness for C1 at the scenario indicator values. -/
theorem momentum_scenario_scores_ten_witness :
    momentumScore scenarioIndicators = 3 + 2 + 2 + 2 + 1
      ∧ (∀ j : IndicatorSet, momentumScore j ≤ 10) :=
  momentum_scenario_scores_ten scenarioIndicators rfl rfl rfl
    (by norm_num [scenarioIndicators]) rfl

/-- C3: the market-session predicate of `App.jsx` returns open exactly when
the Eastern-Time components fall on a weekday (not Saturday or Sunday) and
the minute of day lies in the half-open interval `[9:30, 16:00)`; the
`Sidebar.jsx` variant agrees with it. -/
theorem isMarketOpen_iff_weekday_and_session (w : Weekday) (h m : ℕ) :
    (isMarketOpen w.shortName h m = true
        ↔ w ≠ .sat ∧ w ≠ .sun ∧ 9 * 60 + 30 ≤ h * 60 + m ∧ h * 60 + m < 16 * 60)
      ∧ getMarketStatusIsOpen w.shortName h m = isMarketOpen w.shortName h m := by
  cases w <;>
    refine ⟨?_, ?_⟩ <;>
    simp only [isMarketOpen, getMarketStatusIsOpen, Weekday.shortName,
      Bool.or_eq_true, Bool.and_eq_true, decide_eq_true_eq] <;>
    split_ifs <;>
    simp_all <;>
    omega

/-- C9: for every scored asset under every strategy variant — Momentum,
Value or Defensive — the points of its score-breakdown entries sum exactly
to its total score, and the breakdown always lists one entry per evaluated
criterion of that strategy, zero-point and unavailable entries included. -/
theorem breakdown_sums_to_total (k : StrategyKind) (i : IndicatorSet)
    (f : FundamentalsSnapshot) :
    ((strategyBreakdown k i f).map BreakdownEntry.points).sum
        = strategyScore k i f
      ∧ (strategyBreakdown k i f).length = criterionCount k := by
  obtain ⟨pe, dy, roe, beta, vol⟩ := f
  cases k
  case momentum =>
    refine ⟨?_, rfl⟩
    simp only [strategyBreakdown, strategyScore, momentumBreakdown,
      momentumScore, List.map_cons, List.map_nil, List.sum_cons, List.sum_nil]
    omega
  case value =>
    cases pe <;> cases dy <;> cases roe <;>
      refine ⟨?_, rfl⟩ <;>
      simp only [strategyBreakdown, strategyScore, valueBreakdown, valueScore,
        List.map_cons, List.map_nil, List.sum_cons, List.sum_nil] <;>
      (try split_ifs) <;>
      omega
  case defensive =>
    cases beta <;> cases vol <;> cases dy <;>
      refine ⟨?_, rfl⟩ <;>
      simp only [strategyBreakdown, strategyScore, defensiveBreakdown,
        defensiveScore, List.map_cons, List.map_nil, List.sum_cons,
        List.sum_nil] <;>
      (try split_ifs) <;>
      omega

/-- C2: a non-forced request for a strategy with an existing cache entry
that is within TTL, or while the market is closed, performs no provider
fetch and serves the cached data unchanged; the cache itself is untouched. -/
theorem cache_hit_serves_without_fetch (s : AppState) (strategy : String)
    (now : ℕ) (marketOpen : Bool) (outcome : Except String RankedResponse)
    (settleTime : ℕ) (c : CacheEntry) (hc : s.cache strategy = some c)
    (hvalid : now - c.timestamp < CACHE_TTL ∨ marketOpen = false) :
    runFetchData s strategy false now marketOpen outcome settleTime
      = ({ s with data := some c.data, isLoading := false }, 0) := by
  rcases hvalid with hv | hv <;>
    simp [runFetchData, beginFetchData, hc, hv]

/-- Witness for C2: market closed, cached entry three days (259200000 ms,
far beyond the 5-minute TTL) old — still served with zero provider calls. -/
theorem cache_hit_serves_without_fetch_witness :
    runFetchData sampleCachedState "momentum" false 259200000 false
        (Except.error "backend caído") 259200000
      = ({ sampleCachedState with data := some sampleResponse, isLoading := false }, 0) :=
  cache_hit_serves_without_fetch sampleCachedState "momentum" 259200000 false
    (Except.error "backend caído") 259200000 ⟨sampleResponse, 0⟩
    (by simp [sampleCachedState]) (Or.inr rfl)

/-- C4: a forced request performs exactly one provider fetch regardless of
cache state and market session, and on success the result replaces the
strategy's cache entry wholesale, data and timestamp together. -/
theorem force_refresh_fetches_once (s : AppState) (strategy : String)
    (now : ℕ) (marketOpen : Bool) (outcome : Except String RankedResponse)
    (settleTime : ℕ) :
    (runFetchData s strategy true now marketOpen outcome settleTime).2 = 1
      ∧ ∀ r, outcome = Except.ok r →
          (runFetchData s strategy true now marketOpen outcome
              settleTime).1.cache strategy
            = some ⟨r, settleTime⟩ := by
  cases hc : s.cache strategy <;>
    cases outcome <;>
    simp [runFetchData, beginFetchData, settleFetchData, hc]

/-- Witness for C4 on a state whose momentum entry is fresh: the forced
call still fetches once and overwrites the entry with the new timestamp. -/
theorem force_refresh_fetches_once_witness :
    (runFetchData sampleCachedState "momentum" true 0 true
        (Except.ok sampleResponse) 5).2 = 1
      ∧ (runFetchData sampleCachedState "momentum" true 0 true
            (Except.ok sampleResponse) 5).1.cache "momentum"
          = some ⟨sampleResponse, 5⟩ :=
  ⟨(force_refresh_fetches_once sampleCachedState "momentum" 0 true
      (Except.ok sampleResponse) 5).1,
   (force_refresh_fetches_once sampleCachedState "momentum" 0 true
      (Except.ok sampleResponse) 5).2 sampleResponse rfl⟩

/-- C7: when the provider fetch fails, the whole cache is left unchanged;
a strategy's entry is only ever replaced wholesale, by a successful fetch
with its fresh timestamp. -/
theorem failed_fetch_leaves_cache_unchanged (s : AppState) (strategy : String)
    (force : Bool) (now : ℕ) (marketOpen : Bool)
    (outcome : Except String RankedResponse) (settleTime : ℕ) :
    (∀ msg, outcome = Except.error msg →
        (runFetchData s strategy force now marketOpen outcome
            settleTime).1.cache
          = s.cache)
      ∧ ((runFetchData s strategy force now marketOpen outcome
              settleTime).1.cache strategy
            = s.cache strategy
          ∨ ∃ r, outcome = Except.ok r
              ∧ (runFetchData s strategy force now marketOpen outcome
                    settleTime).1.cache strategy
                  = some ⟨r, settleTime⟩) := by
  cases hc : s.cache strategy <;>
    cases outcome <;>
    simp only [runFetchData, beginFetchData, settleFetchData, hc] <;>
    split_ifs <;>
    simp_all

/-- Witness for C7: a forced fetch that fails leaves the cached momentum
entry (and the rest of the cache) exactly as it was. -/
theorem failed_fetch_leaves_cache_unchanged_witness :
    (runFetchData sampleCachedState "momentum" true 400000 true
        (Except.error "backend caído") 400001).1.cache
      = sampleCachedState.cache :=
  (failed_fetch_leaves_cache_unchanged sampleCachedState "momentum" true 400000
      true (Except.error "backend caído") 400001).1 "backend caído" rfl

/-- C10: every started fetch carries the freshly bumped `fetchIdRef` value,
so a later fetch strictly increases the counter; and a settling fetch whose
id is no longer current changes nothing — not the displayed data, the
cache, the error state, nor the loading flag. -/
theorem stale_fetch_outcome_discarded (s : AppState) (strategy : String)
    (force : Bool) (now : ℕ) (marketOpen : Bool) :
    (∀ s₁ fid, beginFetchData s strategy force now marketOpen = (s₁, some fid) →
        fid = s₁.fetchCounter ∧ s₁.fetchCounter = s.fetchCounter + 1)
      ∧ (∀ fid outcome settleTime, fid ≠ s.fetchCounter →
          settleFetchData s strategy fid outcome settleTime = s) := by
  constructor
  · intro s₁ fid hbegin
    cases hc : s.cache strategy
    case none =>
      simp only [beginFetchData, hc] at hbegin
      injection hbegin with h₁ h₂
      injection h₂ with h₂
      subst h₁; subst h₂; simp
    case some c =>
      simp only [beginFetchData, hc] at hbegin
      split_ifs at hbegin
      · exact absurd (congrArg Prod.snd hbegin) (by simp)
      · injection hbegin with h₁ h₂
        injection h₂ with h₂
        subst h₁; subst h₂; simp
  · intro fid outcome settleTime hne
    simp [settleFetchData, hne]

/-- Witness for C10: a settlement carrying the stale id 5 against a state
whose counter is 0 leaves the state untouched. -/
theorem stale_fetch_outcome_discarded_witness :
    (5 : ℕ) ≠ sampleCachedState.fetchCounter
      ∧ settleFetchData sampleCachedState "momentum" 5
          (Except.ok sampleResponse) 7
        = sampleCachedState :=
  ⟨by simp [sampleCachedState],
   (stale_fetch_outcome_discarded sampleCachedState "momentum" false 0 true).2
     5 (Except.ok sampleResponse) 7 (by simp [sampleCachedState])⟩

/-- Counterexample for C5: the serialized README example entry carries its
asset identity under the field named `cedear`; no field named `ticker`
exists in the serialized contract. -/
theorem serialized_entry_has_no_ticker_field :
    "ticker" ∉ (serializeEntry nvdaEntry).map Prod.fst
      ∧ "cedear" ∈ (serializeEntry nvdaEntry).map Prod.fst := by
  simp [serializeEntry, nvdaEntry]

/-- C5 (amended): every serialized response exposes `date`, `disclaimer`
and the ordered entry list; each entry exposes its identity under the
field named `cedear` alongside `company`, `score`, `daily_change_pct`,
`volume_ratio`, `rsi`, `trend`, `current_price`, with `score_breakdown`
appended when requested as an ordered list of reason/points records. -/
theorem serialized_response_shape (r : RankedResponse) (e : Entry)
    (b : BreakdownEntry) (bs : List BreakdownEntry) :
    (serializeResponse r).map Prod.fst = ["date", "disclaimer", "top5"]
      ∧ (e.score_breakdown = none →
          (serializeEntry e).map Prod.fst
            = ["cedear", "company", "score", "daily_change_pct",
                "volume_ratio", "rsi", "trend", "current_price"])
      ∧ (e.score_breakdown = some bs →
          (serializeEntry e).map Prod.fst
            = ["cedear", "company", "score", "daily_change_pct",
                "volume_ratio", "rsi", "trend", "current_price",
                "score_breakdown"])
      ∧ (serializeBreakdownEntry b).map Prod.fst = ["reason", "points"] := by
  refine ⟨rfl, ?_, ?_, rfl⟩ <;> intro h <;> simp [serializeEntry, h]

/-- Witness for C5 (amended) at the README example data. -/
theorem serialized_response_shape_witness :
    (serializeResponse sampleResponse).map Prod.fst
        = ["date", "disclaimer", "top5"]
      ∧ (serializeEntry nvdaEntry).map Prod.fst
          = ["cedear", "company", "score", "daily_change_pct",
              "volume_ratio", "rsi", "trend", "current_price"]
      ∧ (serializeBreakdownEntry ⟨"Tendencia alcista", 1⟩).map Prod.fst
          = ["reason", "points"] :=
  ⟨(serialized_response_shape sampleResponse nvdaEntry
      ⟨"Tendencia alcista", 1⟩ []).1,
   (serialized_response_shape sampleResponse nvdaEntry
      ⟨"Tendencia alcista", 1⟩ []).2.1 rfl,
   (serialized_response_shape sampleResponse nvdaEntry
      ⟨"Tendencia alcista", 1⟩ []).2.2.2⟩

/-- C6: a Global entry stores the asset's strategy-membership count — an
integer between 0 and 3 — in its `volume_ratio` field and its average
score across the including strategies in its `rsi` field, and the
frontend's Global rendering recovers exactly those two values. -/
theorem global_entry_overloads_fields (mTop vTop dTop : List String)
    (mScore vScore dScore : String → ℚ) (t company : String)
    (trend : Trend) (change price : ℚ) :
    (globalEntry mTop vTop dTop mScore vScore dScore t company trend
        change price).volume_ratio
        = (membershipCount mTop vTop dTop t : ℚ)
      ∧ membershipCount mTop vTop dTop t ≤ 3
      ∧ (globalEntry mTop vTop dTop mScore vScore dScore t company trend
            change price).rsi
          = avgIncludedScore mTop vTop dTop mScore vScore dScore t
      ∧ renderGlobalIndicators
            (globalEntry mTop vTop dTop mScore vScore dScore t company trend
              change price)
          = ((membershipCount mTop vTop dTop t : ℤ),
              avgIncludedScore mTop vTop dTop mScore vScore dScore t) := by
  refine ⟨rfl, ?_, rfl, ?_⟩
  · unfold membershipCount; split_ifs <;> omega
  · simp [renderGlobalIndicators, globalEntry, round_natCast]

/-- The ranking order is transitive. -/
theorem rankLE_trans (a b c : ScoredAsset) (h₁ : rankLE a b = true)
    (h₂ : rankLE b c = true) : rankLE a c = true := by
  simp only [rankLE, Bool.or_eq_true, Bool.and_eq_true,
    decide_eq_true_eq] at h₁ h₂ ⊢
  rcases h₁ with h₁ | ⟨h₁, h₁t⟩ <;> rcases h₂ with h₂ | ⟨h₂, h₂t⟩
  · exact Or.inl (by omega)
  · exact Or.inl (by omega)
  · exact Or.inl (by omega)
  · exact Or.inr ⟨by omega, le_trans h₁t h₂t⟩

/-- The ranking order is total. -/
theorem rankLE_total (a b : ScoredAsset) : (rankLE a b || rankLE b a) = true := by
  simp only [rankLE, Bool.or_eq_true, Bool.and_eq_true, decide_eq_true_eq]
  rcases Nat.lt_trichotomy a.score b.score with h | h | h
  · exact Or.inr (Or.inl h)
  · rcases le_total a.ticker b.ticker with ht | ht
    · exact Or.inl (Or.inr ⟨h, ht⟩)
    · exact Or.inr (Or.inr ⟨h.symm, ht⟩)
  · exact Or.inl (Or.inl h)

/-- C8: on any input whose tickers are pairwise distinct, the ranking
engine produces entries in strictly descending score order with ties
broken by strictly ascending ticker — so no two entries share an equal
(score, ticker) pair — and identical input data yields the identical
ranking. -/
theorem ranking_deterministic_total_order (topN : ℕ) (l : List ScoredAsset)
    (hnd : (l.map ScoredAsset.ticker).Nodup) :
    List.Pairwise
        (fun a b => b.score < a.score ∨ (a.score = b.score ∧ a.ticker < b.ticker))
        (rankAssets topN l)
      ∧ ∀ l₂, l = l₂ → rankAssets topN l = rankAssets topN l₂ := by
  refine ⟨?_, fun l₂ h => h ▸ rfl⟩
  have hsorted : List.Pairwise (fun a b => rankLE a b = true) (l.mergeSort rankLE) :=
    List.sorted_mergeSort rankLE_trans rankLE_total l
  have hperm : (l.mergeSort rankLE).Perm l := List.mergeSort_perm l rankLE
  have hnd₂ : ((l.mergeSort rankLE).map ScoredAsset.ticker).Nodup :=
    ((hperm.map ScoredAsset.ticker).nodup_iff).mpr hnd
  have hne : List.Pairwise (fun a b => a.ticker ≠ b.ticker) (l.mergeSort rankLE) :=
    List.pairwise_map.mp hnd₂
  have hstrict :
      List.Pairwise
        (fun a b => b.score < a.score ∨ (a.score = b.score ∧ a.ticker < b.ticker))
        (l.mergeSort rankLE) := by
    refine (hsorted.and hne).imp ?_
    intro a b ⟨hle, hnab⟩
    simp only [rankLE, Bool.or_eq_true, Bool.and_eq_true,
      decide_eq_true_eq] at hle
    rcases hle with hlt | ⟨heq, hta⟩
    · exact Or.inl hlt
    · exact Or.inr ⟨heq, lt_of_le_of_ne hta hnab⟩
  exact List.Pairwise.sublist (List.take_sublist topN _) hstrict

/-- Witness for C8 on a three-asset list with one score tie. -/
theorem ranking_deterministic_total_order_witness :
    List.Pairwise
        (fun a b => b.score < a.score ∨ (a.score = b.score ∧ a.ticker < b.ticker))
        (rankAssets 5 sampleAssets)
      ∧ rankAssets 5 sampleAssets = rankAssets 5 sampleAssets :=
  ⟨(ranking_deterministic_total_order 5 sampleAssets (by decide)).1,
   (ranking_deterministic_total_order 5 sampleAssets (by decide)).2
     sampleAssets rfl⟩

end DuckWallet
